import Mathlib

/-!
Verification development for the Corridor_Profile dashboard expression
scripts.  Each script computes one display value from a selection data
source and a full-layer data source.  The definitions below are a shallow
embedding of the Arcade scripts:

- field values are modelled by `AVal` (number, string, null, or NaN);
  exact rationals stand in for the platform float numbers;
- a feature is an association list from field names to values, and a
  missing field reads as null (matching the GetVal helper and the
  degrade-to-null behaviour of the host);
- each script becomes a total Lean function from an `Env` (the two data
  collections plus the availability flag of the full-layer source) to the
  returned record of display string and text styling.

Rational arithmetic is carried out by the executable wrappers `qadd`,
`qmul`, `qdiv`, ... below, which are defined through `mkRat` so that they
evaluate by kernel reduction; the bridge lemmas `qadd_eq`, `qmul_eq`, ...
identify them with the standard field operations of `ℚ`.

Modelling notes, stated once here:
- `numOf` models the Arcade Number() coercion; Number(null) is 0, and
  string parsing and NaN propagation inside sums are not exercised by any
  theorem below (layer attribute values there are numbers or null);
- `textOfNum` models the host float-to-string conversion on terminating
  decimals, the only values the theorems touch;
- Text(null, pattern) is modelled as the empty string.
-/

/-- Executable addition on rationals (kernel-reducible). -/
def qadd (a b : ℚ) : ℚ :=
  mkRat (a.num * b.den + b.num * a.den) (a.den * b.den)

/-- Executable negation on rationals (kernel-reducible). -/
def qneg (a : ℚ) : ℚ :=
  mkRat (-a.num) a.den

/-- Executable subtraction on rationals (kernel-reducible). -/
def qsub (a b : ℚ) : ℚ :=
  qadd a (qneg b)

/-- Executable multiplication on rationals (kernel-reducible). -/
def qmul (a b : ℚ) : ℚ :=
  mkRat (a.num * b.num) (a.den * b.den)

/-- Executable inverse on rationals (kernel-reducible); the inverse of 0
is 0. -/
def qinv (a : ℚ) : ℚ :=
  if a.num < 0 then mkRat (-(a.den : ℤ)) a.num.natAbs
  else mkRat (a.den : ℤ) a.num.natAbs

/-- Executable division on rationals (kernel-reducible). -/
def qdiv (a b : ℚ) : ℚ :=
  qmul a (qinv b)

/-- Executable absolute value on rationals (kernel-reducible). -/
def qabs (a : ℚ) : ℚ :=
  mkRat (a.num.natAbs : ℤ) a.den

/-- Executable strict comparison on rationals (kernel-reducible). -/
def qltB (a b : ℚ) : Bool :=
  decide (a.num * (b.den : ℤ) < b.num * (a.den : ℤ))

/-- Executable non-strict comparison on rationals (kernel-reducible). -/
def qleB (a b : ℚ) : Bool :=
  decide (a.num * (b.den : ℤ) ≤ b.num * (a.den : ℤ))

/-- A field value of a feature: a number (exact rational standing in for
the platform float), a string, null, or NaN. -/
inductive AVal where
  | null : AVal
  | num : ℚ → AVal
  | str : String → AVal
  | nan : AVal
deriving DecidableEq

/-- A feature is an association list from field names to values. -/
def Feature : Type := List (String × AVal)

/-- Field read, modelling both direct indexing and the GetVal helper of
the scripts: a missing field reads as null.  For GetVal (which checks
HasKey first) and for fields that are present but null this is exact; for
direct indexing of a field absent from the schema the host instead takes
its field-not-found error path, which this embedding does not model - the
degradation theorems below therefore use features whose fields are
present but null. -/
def fget (f : Feature) (key : String) : AVal :=
  match List.find? (fun p => p.1 == key) f with
  | some p => p.2
  | none => AVal.null

/-- Arcade IsEmpty: true on null and on the empty string. -/
def isEmptyV : AVal → Bool
  | AVal.null => true
  | AVal.str s => s == ""
  | _ => false

/-- Arcade IsNan: true only on the NaN number value. -/
def isNanV : AVal → Bool
  | AVal.nan => true
  | _ => false

/-- Arcade Number() coercion: numbers pass through, null is 0; NaN and
string parsing are modelled as 0 (no theorem feeds them into arithmetic,
and every comparison guard treats them as not greater than 0, as the
host does). -/
def numOf : AVal → ℚ
  | AVal.num q => q
  | _ => 0

/-- Boolean test for a strictly positive rational (kernel-reducible). -/
def posQ (q : ℚ) : Bool :=
  decide (0 < q.num)

/-- Arcade comparison value > 0 on a raw field value: only a number can
compare greater than zero. -/
def gtZero : AVal → Bool
  | AVal.num q => posQ q
  | _ => false

/-- Computable floor of a rational, via floor division of the numerator by
the denominator. -/
def qfloor (q : ℚ) : ℤ :=
  Int.fdiv q.num (q.den : ℤ)

/-- Arcade Round to an integer: round half away from zero. -/
def roundHalfAway (q : ℚ) : ℤ :=
  if qleB 0 q then qfloor (qadd q (mkRat 1 2))
  else - qfloor (qadd (qneg q) (mkRat 1 2))

/-- Decimal digit as a character. -/
def digitChar (n : ℕ) : Char :=
  Char.ofNat (48 + n)

/-- Decimal digits of a natural number, most significant first
(fuel-structured so that it evaluates by kernel reduction). -/
def natCharsAux : ℕ → ℕ → List Char
  | 0, _ => []
  | fuel + 1, n =>
    if n < 10 then [digitChar n]
    else natCharsAux fuel (n / 10) ++ [digitChar (n % 10)]

/-- Decimal digits of a natural number. -/
def natChars (n : ℕ) : List Char :=
  natCharsAux (n + 1) n

/-- Insert a comma after every three characters of a reversed digit
list. -/
def commasRev : List Char → List Char
  | a :: b :: c :: d :: rest => a :: b :: c :: ',' :: commasRev (d :: rest)
  | l => l

/-- Group decimal digits in threes with commas. -/
def groupChars (ds : List Char) : List Char :=
  (commasRev ds.reverse).reverse

/-- Integer rendered without digit grouping. -/
def intPlainStr (z : ℤ) : String :=
  (if z < 0 then "-" else "") ++ String.mk (natChars z.natAbs)

/-- Integer rendered with comma digit grouping. -/
def intGroupStr (z : ℤ) : String :=
  (if z < 0 then "-" else "") ++ String.mk (groupChars (natChars z.natAbs))

/-- Render a count of tenths as a decimal string with no grouping and a
trailing .0 dropped, e.g. 15 tenths as 1.5 and 10 tenths as 1.  This is
the Text pattern with only # placeholders applied to a multiple of one
tenth, and also the host default float-to-string on such a value. -/
def tenthsStrPlain (k : ℤ) : String :=
  let a := k.natAbs
  (if k < 0 then "-" else "") ++ String.mk (natChars (a / 10)) ++
    (if a % 10 == 0 then "" else String.mk ['.', digitChar (a % 10)])

/-- The Text pattern "#,###" on a number: round to an integer, group with
commas. -/
def textNumGrouped (q : ℚ) : String :=
  intGroupStr (roundHalfAway q)

/-- The Text pattern "#,###.0" on a number: round to tenths, group the
integer part with commas, always show one decimal digit. -/
def textNumGrouped1 (q : ℚ) : String :=
  let k := roundHalfAway (qmul q 10)
  let a := k.natAbs
  (if k < 0 then "-" else "") ++ String.mk (groupChars (natChars (a / 10))) ++
    String.mk ['.', digitChar (a % 10)]

/-- The Text pattern "#,###" on a raw field value; Text(null, pattern) is
modelled as the empty string, and non-numeric values (never exercised by
the theorems) likewise. -/
def textNumGroupedV : AVal → String
  | AVal.num q => textNumGrouped q
  | _ => ""

/-- The Text pattern "#,###.0" on a raw field value, with the same null
convention. -/
def textNumGrouped1V : AVal → String
  | AVal.num q => textNumGrouped1 q
  | _ => ""

/-- The Text pattern "#%" on a number: multiply by 100, round to an
integer, append the percent sign. -/
def textPercent (q : ℚ) : String :=
  intPlainStr (roundHalfAway (qmul q 100)) ++ "%"

/-- Fractional digits of a rational in the interval from 0 to 1,
fuel-bounded; used only to model host float-to-string on terminating
decimals. -/
def fracChars : ℕ → ℚ → List Char
  | 0, _ => []
  | fuel + 1, q =>
    if q = 0 then []
    else
      let d := (qfloor (qmul q 10)).toNat
      digitChar d :: fracChars fuel (qsub (qmul q 10) (mkRat d 1))

/-- Host float-to-string conversion, modelled for terminating decimals. -/
def textOfNum (q : ℚ) : String :=
  let a := qabs q
  let ip := (qfloor a).toNat
  let fp := qsub a (mkRat ip 1)
  (if q.num < 0 then "-" else "") ++ String.mk (natChars ip) ++
    (if fp = 0 then "" else String.mk ('.' :: fracChars 20 fp))

/-- String rendering of a raw value, as used by string concatenation in
the scripts: null concatenates as the empty string. -/
def textOfAVal : AVal → String
  | AVal.null => ""
  | AVal.num q => textOfNum q
  | AVal.str s => s
  | AVal.nan => "NaN"

/-- The formatCompact helper of the Project_Cost_Construction script
(src/unnamed/part_000): dollar sign, thresholds at one thousand, one
million and one billion, division by the threshold, rounding to one
decimal via Round(n, 1) and the default number-to-string which drops a
trailing .0.  There is no NaN check: a NaN input fails every comparison
and falls through to the final branch, where Round(NaN, 1) renders as
NaN. -/
def formatCompact (n : AVal) : String :=
  if isEmptyV n then "$0"
  else
    match n with
    | AVal.num q =>
      let a := qabs q
      if qltB a 1000 then "$" ++ tenthsStrPlain (roundHalfAway (qmul q 10))
      else if qltB a 1000000 then
        "$" ++ tenthsStrPlain (roundHalfAway (qmul (qdiv q 1000) 10)) ++ "K"
      else if qltB a 1000000000 then
        "$" ++ tenthsStrPlain (roundHalfAway (qmul (qdiv q 1000000) 10)) ++ "M"
      else
        "$" ++ tenthsStrPlain (roundHalfAway (qmul (qdiv q 1000000000) 10)) ++ "B"
    | _ => "$NaNB"

/-- The FormatCompact helper of the truck statistics script (third script
in src/Corridor_Profile/ArcadeScripts/AADT.js): empty or NaN input
returns the string 0 with no dollar sign; otherwise the absolute value is
compared against the thresholds from the top down, divided, the sign is
reapplied, the result is rounded to one decimal and rendered with the
pattern of # placeholders which drops a trailing .0; a non-numeric
non-empty input (never exercised) renders as NaN. -/
def FormatCompact (n : AVal) : String :=
  if isEmptyV n || isNanV n then "0"
  else
    match n with
    | AVal.num q =>
      let a := qabs q
      let sign : ℚ := if q.num < 0 then -1 else 1
      if qleB 1000000000 a then
        tenthsStrPlain (roundHalfAway (qmul (qmul (qdiv a 1000000000) sign) 10)) ++ "B"
      else if qleB 1000000 a then
        tenthsStrPlain (roundHalfAway (qmul (qmul (qdiv a 1000000) sign) 10)) ++ "M"
      else if qleB 1000 a then
        tenthsStrPlain (roundHalfAway (qmul (qmul (qdiv a 1000) sign) 10)) ++ "K"
      else tenthsStrPlain (roundHalfAway (qmul (qmul a sign) 10))
    | _ => "NaN"

/-- Fingerprint tolerance test of the scripts that index Total_Miles
directly: the absolute difference of the two field values is strictly
below 0.01.  A comparison involving a non-number operand never
satisfies the test. -/
def withinTol (a b : AVal) : Bool :=
  match a, b with
  | AVal.num x, AVal.num y => qltB (qabs (qsub x y)) (mkRat 1 100)
  | _, _ => false

/-- Fingerprint tolerance test of the GetVal-based scripts: the candidate
value must be non-empty and the absolute difference of the Number()
coercions strictly below 0.01. -/
def withinTolG (a b : AVal) : Bool :=
  !isEmptyV a && qltB (qabs (qsub (numOf a) (numOf b))) (mkRat 1 100)

/-- The shared Case A value resolution of the single-field scripts (AADT,
Number_Of_Fatal_Crashes, Projects_Construction, Project_Cost_Construction):
read the target field directly; if it is empty and the Total_Miles
fingerprint of the selected feature is non-empty, scan the full layer in
order and take the target field of the first feature whose Total_Miles is
within tolerance; otherwise keep the (empty) direct value. -/
def resolveValue (sel : Feature) (refs : List Feature) (field : String) : AVal :=
  let v := fget sel field
  if isEmptyV v then
    let targetMiles := fget sel "Total_Miles"
    if isEmptyV targetMiles then v
    else
      match List.find? (fun f => withinTol (fget f "Total_Miles") targetMiles) refs with
      | some f => fget f field
      | none => v
  else v

/-- Case A value resolution of the truck statistics script: read
Truck_AADT, AADT and Tons; if Truck_AADT or Tons is empty and the
fingerprint is non-empty, the first matching full-layer feature
overwrites all three values. -/
def truckResolve (sel : Feature) (refs : List Feature) : AVal × AVal × AVal :=
  let vT := fget sel "Truck_AADT"
  let vA := fget sel "AADT"
  let vTons := fget sel "Tons"
  if isEmptyV vT || isEmptyV vTons then
    let targetMiles := fget sel "Total_Miles"
    if !isEmptyV targetMiles then
      match List.find? (fun f => withinTolG (fget f "Total_Miles") targetMiles) refs with
      | some f => (fget f "Truck_AADT", fget f "AADT", fget f "Tons")
      | none => (vT, vA, vTons)
    else (vT, vA, vTons)
  else (vT, vA, vTons)

/-- NormalizeKey of the 4D+ miles script: Lower(Trim(Text(value))). -/
def fourDKey (v : AVal) : String :=
  (textOfAVal v).trim.map Char.toLower

/-- Case A value resolution of the 4D+ miles script for one selected
feature: direct read, else match by normalized HWY key, else match by the
Total_Miles fingerprint. -/
def fourDResolve (allFeats : List Feature) (selFeature : Feature) : AVal :=
  let val := fget selFeature "four_D_plus_miles"
  if isEmptyV val then
    let hwyMatch :=
      if !isEmptyV (fget selFeature "HWY") then
        List.find?
          (fun f =>
            !isEmptyV (fget f "HWY") &&
              (fourDKey (fget f "HWY") == fourDKey (fget selFeature "HWY")))
          allFeats
      else none
    match hwyMatch with
    | some f => fget f "four_D_plus_miles"
    | none =>
      let targetMiles := fget selFeature "Total_Miles"
      if !isEmptyV targetMiles then
        match List.find? (fun f => withinTolG (fget f "Total_Miles") targetMiles) allFeats with
        | some f => fget f "four_D_plus_miles"
        | none => val
      else val
  else val

/-- Arcade Sum of a field over a collection, empty values contributing
0. -/
def arcadeSum (feats : List Feature) (field : String) : ℚ :=
  feats.foldl (fun acc f => qadd acc (numOf (fget f field))) 0

/-- Loop guard of the AADT script Case B: AADT and Total_Miles both
non-empty and strictly positive. -/
def aadtGuard (f : Feature) : Bool :=
  !isEmptyV (fget f "AADT") && !isEmptyV (fget f "Total_Miles") &&
    posQ (numOf (fget f "AADT")) && posQ (numOf (fget f "Total_Miles"))

/-- Case B accumulation loop of the AADT script: the pair of
sumWeightedAADT and sumTotalMiles. -/
def aadtFold (feats : List Feature) : ℚ × ℚ :=
  feats.foldl
    (fun acc f =>
      if aadtGuard f then
        (qadd acc.1 (qmul (numOf (fget f "AADT")) (numOf (fget f "Total_Miles"))),
          qadd acc.2 (numOf (fget f "Total_Miles")))
      else acc)
    (0, 0)

/-- The weighted average value the AADT script computes in Case B, 0 when
the accumulated weight is not positive. -/
def aadtAvg (feats : List Feature) : ℚ :=
  let p := aadtFold feats
  if posQ p.2 then qdiv p.1 p.2 else 0

/-- Loop guard of the truck statistics script Case B: only Truck_AADT and
Total_Miles are required to be positive. -/
def truckGuard (f : Feature) : Bool :=
  posQ (numOf (fget f "Truck_AADT")) && posQ (numOf (fget f "Total_Miles"))

/-- Case B accumulation loop of the truck statistics script: weighted
sums of Truck_AADT, AADT and Tons, and the sum of Total_Miles, all under
the Truck_AADT-and-miles guard. -/
def truckFold (feats : List Feature) : ℚ × ℚ × ℚ × ℚ :=
  feats.foldl
    (fun acc f =>
      if truckGuard f then
        (qadd acc.1 (qmul (numOf (fget f "Truck_AADT")) (numOf (fget f "Total_Miles"))),
          qadd acc.2.1 (qmul (numOf (fget f "AADT")) (numOf (fget f "Total_Miles"))),
          qadd acc.2.2.1 (qmul (numOf (fget f "Tons")) (numOf (fget f "Total_Miles"))),
          qadd acc.2.2.2 (numOf (fget f "Total_Miles")))
      else acc)
    (0, 0, 0, 0)

/-- Case B values of the truck statistics script: the hasData flag and
the three weighted averages. -/
def truckCaseBVals (feats : List Feature) : Bool × ℚ × ℚ × ℚ :=
  let s := truckFold feats
  if posQ s.2.2.2 then
    (true, qdiv s.1 s.2.2.2, qdiv s.2.1 s.2.2.2, qdiv s.2.2.1 s.2.2.2)
  else (false, 0, 0, 0)

/-- Count(Distinct(layer, "Corridor")) of the corridor title script. -/
def distinctCorridorCount (feats : List Feature) : ℕ :=
  ((feats.map (fun f => fget f "Corridor")).dedup).length

/-- Filter following the words of the spec for the weighted average:
features where both the value and the weight are present and strictly
greater than 0. -/
def specGuard (valueF weightF : String) (f : Feature) : Bool :=
  (!isEmptyV (fget f valueF) && posQ (numOf (fget f valueF))) &&
    (!isEmptyV (fget f weightF) && posQ (numOf (fget f weightF)))

/-- Weighted average as worded by the spec: sum of value times weight
over the qualifying features divided by the sum of the weights, 0 when
the total weight is 0. -/
def specWeightedAverage (feats : List Feature) (valueF weightF : String) : ℚ :=
  let qual := feats.filter (specGuard valueF weightF)
  let wsum := (qual.map (fun f => numOf (fget f weightF))).sum
  if wsum = 0 then 0
  else ((qual.map (fun f => numOf (fget f valueF) * numOf (fget f weightF))).sum) / wsum

/-- Boolean test that the first list starts the second. -/
def leadsWith : List Char → List Char → Bool
  | [], _ => true
  | _ :: _, [] => false
  | a :: as, b :: bs => a == b && leadsWith as bs

/-- Boolean test that the pattern occurs somewhere in the list. -/
def hasOccur (p : List Char) : List Char → Bool
  | [] => leadsWith p []
  | c :: rest => leadsWith p (c :: rest) || hasOccur p rest

/-- Replace every occurrence of the pattern, scanning left to right
(fuel-structured on the length of the list so that it evaluates by kernel
reduction). -/
def replaceAllAux (p r : List Char) : ℕ → List Char → List Char
  | 0, s => s
  | _ + 1, [] => []
  | fuel + 1, c :: rest =>
    if leadsWith p (c :: rest) then r ++ replaceAllAux p r fuel (rest.drop (p.length - 1))
    else c :: replaceAllAux p r fuel rest

/-- Arcade Replace(s, find, replacement): replace every occurrence of the
pattern, scanning left to right. -/
def replaceAll (p r s : List Char) : List Char :=
  replaceAllAux p r s.length s

/-- The configured selection data source identifier of the scripts. -/
def selectionID : List Char :=
  "dataSource_56-19abd51320a-layer-1-19abd51336a-layer-3-selection".toList

/-- The derived full-layer identifier:
Replace(selectionID, "-selection", ""). -/
def fullLayerID : List Char :=
  replaceAll ("-selection".toList) [] selectionID

/-- The text styling sub-record of the returned value. -/
structure TextStyle where
  size : ℕ
  bold : Bool
  color : String
  italic : Bool
  underline : Bool
  strike : Bool
deriving DecidableEq

/-- The record each script returns: the display string and the text
styling. -/
structure ScriptOutput where
  value : String
  text : TextStyle
deriving DecidableEq

/-- Evaluation environment of one script run: whether the full-layer data
source key is present, the features of the full layer, and the selected
features of the selection source. -/
structure Env where
  hasFullLayer : Bool
  fullLayer : List Feature
  selectedFeatures : List Feature

/-- The fixed error string of the scripts other than the truck statistics
script. -/
def errMsg : String :=
  "Error: The widget does not have access to the data."

/-- The total_miles script. -/
def evalTotalMiles (env : Env) : ScriptOutput :=
  let displayText :=
    if env.hasFullLayer then
      match env.selectedFeatures with
      | feature :: _ => textNumGrouped1V (fget feature "Total_Miles") ++ " mi"
      | [] => textNumGrouped1 (arcadeSum env.fullLayer "Total_Miles") ++ " mi"
    else errMsg
  ⟨displayText, ⟨20, true, "rgb(0, 86, 169)", false, false, false⟩⟩

/-- The Number_Of_Fatal_Crashes script. -/
def evalFatalCrashes (env : Env) : ScriptOutput :=
  let displayText :=
    if env.hasFullLayer then
      match env.selectedFeatures with
      | feature :: _ =>
        let fatalCrashes := resolveValue feature env.fullLayer "Number_Of_Fatal_Crashes"
        if !isEmptyV fatalCrashes then textNumGroupedV fatalCrashes else "0"
      | [] => textNumGrouped (arcadeSum env.fullLayer "Number_Of_Fatal_Crashes")
    else errMsg
  ⟨displayText, ⟨20, true, "rgb(0, 86, 169)", false, false, false⟩⟩

/-- The Projects_Construction script (second script in AADT.js). -/
def evalProjectsConstruction (env : Env) : ScriptOutput :=
  let displayText :=
    if env.hasFullLayer then
      match env.selectedFeatures with
      | feature :: _ =>
        let value := resolveValue feature env.fullLayer "Projects_Construction"
        if !isEmptyV value then textNumGroupedV value else "0"
      | [] => textNumGrouped (arcadeSum env.fullLayer "Projects_Construction")
    else errMsg
  ⟨displayText, ⟨20, true, "rgb(0, 86, 169)", false, false, false⟩⟩

/-- The Project_Cost_Construction script (src/unnamed/part_000). -/
def evalProjectCost (env : Env) : ScriptOutput :=
  let displayText :=
    if env.hasFullLayer then
      match env.selectedFeatures with
      | feature :: _ =>
        let value := resolveValue feature env.fullLayer "Project_Cost_Construction"
        if !isEmptyV value then formatCompact value else "$0"
      | [] => formatCompact (AVal.num (arcadeSum env.fullLayer "Project_Cost_Construction"))
    else errMsg
  ⟨displayText, ⟨20, true, "rgb(0, 86, 169)", false, false, false⟩⟩

/-- The corridor title script. -/
def evalCorridorTitle (env : Env) : ScriptOutput :=
  let displayText :=
    if env.hasFullLayer then
      match env.selectedFeatures with
      | feature :: _ => textOfAVal (fget feature "Corridor") ++ " Corridor Profile"
      | [] =>
        let totalCount := distinctCorridorCount env.fullLayer
        "Fort Worth District Corridors with Greatest Needs"
    else errMsg
  ⟨displayText, ⟨22, true, "rgb(0, 86, 169)", false, false, false⟩⟩

/-- The AADT script (first script in AADT.js). -/
def evalAADT (env : Env) : ScriptOutput :=
  let displayText :=
    if env.hasFullLayer then
      match env.selectedFeatures with
      | selFeature :: _ =>
        let valAADT := resolveValue selFeature env.fullLayer "AADT"
        if !isEmptyV valAADT && gtZero valAADT then textNumGroupedV valAADT else "0"
      | [] =>
        let p := aadtFold env.fullLayer
        if posQ p.2 then textNumGrouped (mkRat (roundHalfAway (qdiv p.1 p.2)) 1)
        else "0"
    else errMsg
  ⟨displayText, ⟨20, true, "rgb(0, 86, 169)", false, false, false⟩⟩

/-- Output formatting of the truck statistics script: Truck AADT with
grouping, truck share of total AADT as a percentage (or the fixed 0%
when the total is not positive), and compact-formatted Tons. -/
def truckDisplay (numTruck numTotal numTons : ℚ) : String :=
  textNumGrouped (mkRat (roundHalfAway numTruck) 1) ++ " / " ++
    (if posQ numTotal then textPercent (qdiv numTruck numTotal) else "0%") ++
    " / " ++ FormatCompact (AVal.num numTons) ++ " Tons"

/-- The truck statistics script (third script in AADT.js). -/
def evalTruckStats (env : Env) : ScriptOutput :=
  let displayText :=
    if env.hasFullLayer then
      match env.selectedFeatures with
      | selFeature :: _ =>
        let v := truckResolve selFeature env.fullLayer
        if !isEmptyV v.1 then truckDisplay (numOf v.1) (numOf v.2.1) (numOf v.2.2)
        else "0 / 0% / 0"
      | [] =>
        let s := truckCaseBVals env.fullLayer
        if s.1 then truckDisplay s.2.1 s.2.2.1 s.2.2.2 else "0 / 0% / 0"
    else "Error: Data Source Not Found"
  ⟨displayText, ⟨20, true, "rgb(0, 86, 169)", false, false, false⟩⟩

/-- The 4D+ miles script: Case A loops over every selected feature,
resolving and summing the values. -/
def evalFourDMiles (env : Env) : ScriptOutput :=
  let displayText :=
    if env.hasFullLayer then
      match env.selectedFeatures with
      | [] => textNumGrouped1 (arcadeSum env.fullLayer "four_D_plus_miles") ++ " mi"
      | sf :: rest =>
        let miles4Dplus :=
          (sf :: rest).foldl
            (fun acc selFeature =>
              let val := fourDResolve env.fullLayer selFeature
              if !isEmptyV val then qadd acc (numOf val) else acc)
            0
        textNumGrouped1 miles4Dplus ++ " mi"
    else errMsg
  ⟨displayText, ⟨20, true, "rgb(0, 86, 169)", false, false, false⟩⟩

/-- Selected feature with a present but null AADT and a 5-mile
fingerprint, for the fallback witness. -/
def selW1 : Feature := [("AADT", AVal.null), ("Total_Miles", AVal.num 5)]

/-- Reference feature out of tolerance of the 5-mile fingerprint. -/
def refA : Feature := [("Total_Miles", AVal.num 10), ("AADT", AVal.num 7)]

/-- First in-order reference feature within tolerance of the 5-mile
fingerprint. -/
def refB : Feature := [("Total_Miles", AVal.num (mkRat 4999 1000)), ("AADT", AVal.num 42)]

/-- Later reference feature also within tolerance (an exact match), which
the first-match policy must skip. -/
def refC : Feature := [("Total_Miles", AVal.num 5), ("AADT", AVal.num 99)]

/-- Selected feature for the truck statistics counterexample: AADT is
present and non-empty, Truck_AADT is missing. -/
def selTruckCE : Feature :=
  [("AADT", AVal.num 5), ("Tons", AVal.num 1), ("Total_Miles", AVal.num 2)]

/-- Matching full-layer feature with a different AADT value. -/
def refTruckCE : Feature :=
  [("Total_Miles", AVal.num 2), ("Truck_AADT", AVal.num 3),
    ("AADT", AVal.num 7), ("Tons", AVal.num 4)]

/-- Selected feature carrying 1 mile of 4D+ miles. -/
def fourD1 : Feature := [("four_D_plus_miles", AVal.num 1)]

/-- Second selected feature carrying 2 miles of 4D+ miles. -/
def fourD2 : Feature := [("four_D_plus_miles", AVal.num 2)]

/-- Selected feature on which every field the scripts read is present in
the schema but null-valued, for the degradation statements: null-valued
fields follow the host semantics exactly, with no reliance on the
missing-field convention of fget. -/
def nullFeat : Feature :=
  [("Number_Of_Fatal_Crashes", AVal.null), ("Projects_Construction", AVal.null),
    ("Project_Cost_Construction", AVal.null), ("AADT", AVal.null),
    ("Truck_AADT", AVal.null), ("Tons", AVal.null),
    ("four_D_plus_miles", AVal.null), ("HWY", AVal.null),
    ("Total_Miles", AVal.null), ("Corridor", AVal.null)]

/-- A feature with two fatal crashes. -/
def fatal2 : Feature := [("Number_Of_Fatal_Crashes", AVal.num 2)]

/-- Feature of corridor A. -/
def corrA : Feature := [("Corridor", AVal.str "A")]

/-- Feature of corridor B. -/
def corrB : Feature := [("Corridor", AVal.str "B")]

/-- Full-layer feature passing the truck guard while carrying a negative
AADT and a zero Tons value. -/
def truckCE5 : Feature :=
  [("Truck_AADT", AVal.num 10), ("AADT", AVal.num (-5)),
    ("Tons", AVal.num 0), ("Total_Miles", AVal.num 2)]

/-- Selected feature with a present but negative AADT. -/
def negAADTFeat : Feature := [("AADT", AVal.num (-3))]

theorem qden_ne_zero_q (q : ℚ) : (q.den : ℚ) ≠ 0 :=
  Nat.cast_ne_zero.mpr q.den_nz

theorem natAbs_cast_of_nonneg (n : ℤ) (h : 0 ≤ n) :
    ((n.natAbs : ℕ) : ℚ) = (n : ℚ) := by
  rw [Int.cast_natAbs, abs_of_nonneg h]

theorem natAbs_cast_of_neg (n : ℤ) (h : n < 0) :
    ((n.natAbs : ℕ) : ℚ) = -(n : ℚ) := by
  rw [Int.cast_natAbs, abs_of_neg h]
  push_cast
  ring

theorem qadd_eq (a b : ℚ) : qadd a b = a + b := by
  rw [qadd, Rat.mkRat_eq_div]
  have ha := qden_ne_zero_q a
  have hb := qden_ne_zero_q b
  conv_rhs => rw [← Rat.num_div_den a, ← Rat.num_div_den b]
  push_cast
  field_simp

theorem qneg_eq (a : ℚ) : qneg a = -a := by
  rw [qneg, Rat.mkRat_eq_div]
  push_cast
  rw [neg_div, Rat.num_div_den]

theorem qsub_eq (a b : ℚ) : qsub a b = a - b := by
  rw [qsub, qadd_eq, qneg_eq, sub_eq_add_neg]

theorem qmul_eq (a b : ℚ) : qmul a b = a * b := by
  rw [qmul, Rat.mkRat_eq_div]
  have ha := qden_ne_zero_q a
  have hb := qden_ne_zero_q b
  conv_rhs => rw [← Rat.num_div_den a, ← Rat.num_div_den b]
  push_cast
  field_simp

theorem rat_inv_num_den (a : ℚ) :
    a⁻¹ = (a.den : ℚ) / (a.num : ℚ) := by
  have key : a = (a.num : ℚ) / (a.den : ℚ) := (Rat.num_div_den a).symm
  nth_rewrite 1 [key]
  rw [inv_div]

theorem qinv_eq (a : ℚ) : qinv a = a⁻¹ := by
  rcases lt_trichotomy a.num 0 with h | h | h
  · rw [qinv, if_pos h, Rat.mkRat_eq_div, rat_inv_num_den a,
      natAbs_cast_of_neg a.num h]
    push_cast
    rw [neg_div_neg_eq]
  · have ha : a = 0 := Rat.num_eq_zero.mp h
    subst ha
    rw [qinv]
    norm_num [Rat.mkRat_eq_div]
  · rw [qinv, if_neg (by omega), Rat.mkRat_eq_div, rat_inv_num_den a,
      natAbs_cast_of_nonneg a.num (le_of_lt h)]
    push_cast
    rfl

theorem qdiv_eq (a b : ℚ) : qdiv a b = a / b := by
  rw [qdiv, qmul_eq, qinv_eq, div_eq_mul_inv]

theorem qabs_eq (a : ℚ) : qabs a = |a| := by
  rw [qabs, Rat.mkRat_eq_div]
  rw [Int.cast_natCast]
  rcases le_or_lt 0 a.num with h | h
  · rw [natAbs_cast_of_nonneg a.num h, Rat.num_div_den,
      abs_of_nonneg (Rat.num_nonneg.mp h)]
  · rw [natAbs_cast_of_neg a.num h, neg_div, Rat.num_div_den, abs_of_neg]
    exact lt_of_not_le fun hc => absurd (Rat.num_nonneg.mpr hc) (by omega)

theorem qltB_iff (a b : ℚ) : qltB a b = true ↔ a < b := by
  rw [qltB, decide_eq_true_iff]
  exact (Rat.lt_def).symm

theorem qleB_iff (a b : ℚ) : qleB a b = true ↔ a ≤ b := by
  rw [qleB, decide_eq_true_iff]
  exact (Rat.le_def).symm

theorem posQ_iff (q : ℚ) : posQ q = true ↔ 0 < q := by
  rw [posQ, decide_eq_true_iff]
  exact Rat.num_pos

theorem qfloor_eq (q : ℚ) : qfloor q = ⌊q⌋ := by
  rw [qfloor, Rat.floor_def, Int.fdiv_eq_ediv]
  exact Int.ofNat_nonneg q.den

theorem qltB_false_iff (a b : ℚ) : qltB a b = false ↔ b ≤ a := by
  rw [← not_lt, ← qltB_iff a b]
  constructor
  · intro h hc
    rw [h] at hc
    cases hc
  · intro h
    cases hq : qltB a b
    · rfl
    · exact absurd hq h

theorem qleB_false_iff (a b : ℚ) : qleB a b = false ↔ b < a := by
  rw [← not_le, ← qleB_iff a b]
  constructor
  · intro h hc
    rw [h] at hc
    cases hc
  · intro h
    cases hq : qleB a b
    · rfl
    · exact absurd hq h

theorem posQ_false_iff (q : ℚ) : posQ q = false ↔ ¬ 0 < q := by
  rw [← posQ_iff q]
  constructor
  · intro h hc
    rw [h] at hc
    cases hc
  · intro h
    cases hq : posQ q
    · rfl
    · exact absurd hq h

theorem and_shuffle (a b c d : Bool) :
    (((a && b) && c) && d) = ((a && c) && (b && d)) := by
  revert a b c d
  decide

theorem list_find?_first {α : Type} (p : α → Bool) (pre post : List α) (g : α)
    (hpre : ∀ x ∈ pre, p x = false) (hg : p g = true) :
    List.find? p (pre ++ g :: post) = some g := by
  induction pre with
  | nil =>
    simp only [List.nil_append]
    exact List.find?_cons_of_pos _ hg
  | cons a as ih =>
    have ha : p a = false := hpre a (by simp)
    simp only [List.cons_append]
    rw [List.find?_cons_of_neg _ (by simp [ha])]
    exact ih fun x hx => hpre x (by simp [hx])

theorem aadtFoldAux_eq (feats : List Feature) (a b : ℚ) :
    feats.foldl
      (fun acc f =>
        if aadtGuard f then
          (qadd acc.1 (qmul (numOf (fget f "AADT")) (numOf (fget f "Total_Miles"))),
            qadd acc.2 (numOf (fget f "Total_Miles")))
        else acc)
      (a, b) =
    (a + ((feats.filter aadtGuard).map
        (fun f => numOf (fget f "AADT") * numOf (fget f "Total_Miles"))).sum,
      b + ((feats.filter aadtGuard).map (fun f => numOf (fget f "Total_Miles"))).sum) := by
  induction feats generalizing a b with
  | nil => simp
  | cons f fs ih =>
    by_cases h : aadtGuard f = true
    · simp only [List.foldl_cons, h, if_true]
      rw [ih, List.filter_cons_of_pos h, List.map_cons, List.map_cons,
        List.sum_cons, List.sum_cons, qadd_eq, qadd_eq, qmul_eq, Prod.mk.injEq]
      constructor <;> ring
    · rw [List.foldl_cons, if_neg h, ih, List.filter_cons_of_neg h]

theorem aadtFold_eq (feats : List Feature) :
    aadtFold feats =
      (((feats.filter aadtGuard).map
          (fun f => numOf (fget f "AADT") * numOf (fget f "Total_Miles"))).sum,
        ((feats.filter aadtGuard).map (fun f => numOf (fget f "Total_Miles"))).sum) := by
  rw [aadtFold, aadtFoldAux_eq]
  simp

theorem truckFoldAux_eq (feats : List Feature) (a b c d : ℚ) :
    feats.foldl
      (fun acc f =>
        if truckGuard f then
          (qadd acc.1 (qmul (numOf (fget f "Truck_AADT")) (numOf (fget f "Total_Miles"))),
            qadd acc.2.1 (qmul (numOf (fget f "AADT")) (numOf (fget f "Total_Miles"))),
            qadd acc.2.2.1 (qmul (numOf (fget f "Tons")) (numOf (fget f "Total_Miles"))),
            qadd acc.2.2.2 (numOf (fget f "Total_Miles")))
        else acc)
      (a, b, c, d) =
    (a + ((feats.filter truckGuard).map
        (fun f => numOf (fget f "Truck_AADT") * numOf (fget f "Total_Miles"))).sum,
      b + ((feats.filter truckGuard).map
        (fun f => numOf (fget f "AADT") * numOf (fget f "Total_Miles"))).sum,
      c + ((feats.filter truckGuard).map
        (fun f => numOf (fget f "Tons") * numOf (fget f "Total_Miles"))).sum,
      d + ((feats.filter truckGuard).map (fun f => numOf (fget f "Total_Miles"))).sum) := by
  induction feats generalizing a b c d with
  | nil => simp
  | cons f fs ih =>
    by_cases h : truckGuard f = true
    · simp only [List.foldl_cons, h, if_true]
      rw [ih, List.filter_cons_of_pos h]
      simp only [List.map_cons, List.sum_cons, qadd_eq, qmul_eq, Prod.mk.injEq]
      refine ⟨by ring, by ring, by ring, by ring⟩
    · rw [List.foldl_cons, if_neg h, ih, List.filter_cons_of_neg h]

theorem truckFold_eq (feats : List Feature) :
    truckFold feats =
      (((feats.filter truckGuard).map
          (fun f => numOf (fget f "Truck_AADT") * numOf (fget f "Total_Miles"))).sum,
        ((feats.filter truckGuard).map
          (fun f => numOf (fget f "AADT") * numOf (fget f "Total_Miles"))).sum,
        ((feats.filter truckGuard).map
          (fun f => numOf (fget f "Tons") * numOf (fget f "Total_Miles"))).sum,
        ((feats.filter truckGuard).map (fun f => numOf (fget f "Total_Miles"))).sum) := by
  rw [truckFold, truckFoldAux_eq]
  simp

theorem spec_wsum_nonneg (feats : List Feature) (valueF weightF : String) :
    0 ≤ ((feats.filter (specGuard valueF weightF)).map
      (fun f => numOf (fget f weightF))).sum := by
  apply List.sum_nonneg
  intro x hx
  rw [List.mem_map] at hx
  obtain ⟨f, hf, rfl⟩ := hx
  rw [List.mem_filter] at hf
  have h2 := hf.2
  rw [specGuard, Bool.and_eq_true, Bool.and_eq_true, Bool.and_eq_true] at h2
  exact le_of_lt ((posQ_iff _).mp h2.2.2)

theorem aadtAvg_eq_spec (feats : List Feature) :
    aadtAvg feats = specWeightedAverage feats "AADT" "Total_Miles" := by
  have hg : feats.filter aadtGuard = feats.filter (specGuard "AADT" "Total_Miles") :=
    List.filter_congr fun f _ => by
      rw [aadtGuard, specGuard]
      exact and_shuffle _ _ _ _
  have hw := spec_wsum_nonneg feats "AADT" "Total_Miles"
  rw [aadtAvg, aadtFold_eq, specWeightedAverage, hg]
  by_cases h0 :
      ((feats.filter (specGuard "AADT" "Total_Miles")).map
        (fun f => numOf (fget f "Total_Miles"))).sum = 0
  · rw [if_pos h0]
    have hp : posQ ((feats.filter (specGuard "AADT" "Total_Miles")).map
        (fun f => numOf (fget f "Total_Miles"))).sum = false := by
      rw [posQ_false_iff, h0]
      exact lt_irrefl 0
    rw [hp]
    simp
  · rw [if_neg h0]
    have hpos : 0 < ((feats.filter (specGuard "AADT" "Total_Miles")).map
        (fun f => numOf (fget f "Total_Miles"))).sum :=
      lt_of_le_of_ne hw (fun hc => h0 hc.symm)
    have hp : posQ ((feats.filter (specGuard "AADT" "Total_Miles")).map
        (fun f => numOf (fget f "Total_Miles"))).sum = true := (posQ_iff _).mpr hpos
    rw [hp]
    simp [qdiv_eq]

theorem leadsWith_iff (p : List Char) : ∀ s : List Char,
    leadsWith p s = true ↔ ∃ u, s = p ++ u := by
  induction p with
  | nil =>
    intro s
    simp [leadsWith]
  | cons a as ih =>
    intro s
    cases s with
    | nil =>
      simp [leadsWith]
    | cons b bs =>
      rw [leadsWith, Bool.and_eq_true, beq_iff_eq, ih bs]
      constructor
      · rintro ⟨h1, u, h2⟩
        exact ⟨u, by rw [h1, h2]; rfl⟩
      · rintro ⟨u, h⟩
        injection h with h1 h2
        exact ⟨h1.symm, u, h2⟩

theorem replaceAllAux_nil_out (p r : List Char) (fuel : ℕ) :
    replaceAllAux p r fuel [] = [] := by
  cases fuel <;> rfl

theorem replaceAllAux_strip (p : List Char) (hp : p ≠ []) :
    ∀ (t : List Char) (fuel : ℕ), (t ++ p).length ≤ fuel →
      hasOccur p (t ++ p.dropLast) = false →
      replaceAllAux p [] fuel (t ++ p) = t := by
  intro t
  induction t with
  | nil =>
    intro fuel hlen hocc
    cases hcp : p with
    | nil => exact absurd hcp hp
    | cons c ps =>
      subst hcp
      cases fuel with
      | zero => simp at hlen
      | succ m =>
        simp only [List.nil_append]
        rw [replaceAllAux]
        have hl : leadsWith (c :: ps) (c :: ps) = true :=
          (leadsWith_iff (c :: ps) (c :: ps)).mpr ⟨[], by simp⟩
        rw [if_pos hl]
        have hdrop : ps.drop ((c :: ps).length - 1) = [] := by
          simp [List.drop_length]
        rw [hdrop, replaceAllAux_nil_out]
        rfl
  | cons c t' ih =>
    intro fuel hlen hocc
    have hocc2 : leadsWith p (c :: (t' ++ p.dropLast)) = false ∧
        hasOccur p (t' ++ p.dropLast) = false := by
      have h0 : hasOccur p (c :: (t' ++ p.dropLast)) = false := hocc
      rw [hasOccur, Bool.or_eq_false_iff] at h0
      exact h0
    have hnl : leadsWith p (c :: (t' ++ p)) = false := by
      cases hq : leadsWith p (c :: (t' ++ p)) with
      | false => rfl
      | true =>
        exfalso
        obtain ⟨u, hu⟩ := (leadsWith_iff p (c :: (t' ++ p))).mp hq
        have hune : u ≠ [] := by
          intro h0
          rw [h0, List.append_nil] at hu
          have hlen2 := congrArg List.length hu
          simp at hlen2
          omega
        have hu2 : (c :: t') ++ p = p ++ u := by
          rw [List.cons_append]
          exact hu
        have h1 : ((c :: t') ++ p).dropLast = (c :: t') ++ p.dropLast :=
          List.dropLast_append_of_ne_nil _ hp
        have h2 : (p ++ u).dropLast = p ++ u.dropLast :=
          List.dropLast_append_of_ne_nil _ hune
        have h3 : (c :: t') ++ p.dropLast = p ++ u.dropLast := by
          rw [← h1, ← h2, hu2]
        have h5 : leadsWith p (c :: (t' ++ p.dropLast)) = true := by
          rw [leadsWith_iff]
          refine ⟨u.dropLast, ?_⟩
          rw [← List.cons_append]
          exact h3
        rw [hocc2.1] at h5
        cases h5
    cases fuel with
    | zero => simp at hlen
    | succ m =>
      rw [List.cons_append, replaceAllAux, if_neg (by simp [hnl])]
      congr 1
      apply ih
      · simp only [List.length_append, List.length_cons] at hlen ⊢
        omega
      · exact hocc2.2

/-- C1: for a selected feature whose target field is empty and whose
Total_Miles fingerprint is non-empty, the fallback returns the target
field of the first reference feature in scan order whose fingerprint
differs by strictly less than 0.01 (first match, not closest match), and
when no reference feature is within tolerance the resolved value stays
the empty direct value. -/
theorem resolveValue_first_match_policy (sel : Feature) (field : String)
    (refs pre post : List Feature) (g : Feature)
    (hEmpty : isEmptyV (fget sel field) = true)
    (hFp : isEmptyV (fget sel "Total_Miles") = false) :
    (refs = pre ++ g :: post →
      (∀ x ∈ pre, withinTol (fget x "Total_Miles") (fget sel "Total_Miles") = false) →
      withinTol (fget g "Total_Miles") (fget sel "Total_Miles") = true →
      resolveValue sel refs field = fget g field) ∧
    ((∀ x ∈ refs, withinTol (fget x "Total_Miles") (fget sel "Total_Miles") = false) →
      resolveValue sel refs field = fget sel field ∧
      isEmptyV (resolveValue sel refs field) = true) := by
  constructor
  · intro hsplit hpre hg
    subst hsplit
    rw [resolveValue]
    simp only [hEmpty, if_true, hFp, Bool.false_eq_true, if_false]
    rw [list_find?_first _ pre post g hpre hg]
  · intro hall
    have hnone :
        List.find? (fun f => withinTol (fget f "Total_Miles") (fget sel "Total_Miles"))
          refs = none :=
      List.find?_eq_none.mpr fun x hx => by
        rw [hall x hx]
        exact Bool.false_ne_true
    rw [resolveValue]
    simp only [hEmpty, if_true, hFp, Bool.false_eq_true, if_false, hnone]
    exact ⟨trivial, trivial⟩

/-- C1 witness: with the 5-mile fingerprint the fallback skips the
out-of-tolerance first feature, returns the AADT of the first feature
within tolerance, and ignores the later exact match. -/
theorem resolveValue_first_match_policy_witness :
    resolveValue selW1 [refA, refB, refC] "AADT" = AVal.num 42 := by
  have h := resolveValue_first_match_policy selW1 "AADT" [refA, refB, refC]
    [refA] [refC] refB (by decide) (by decide)
  have h2 := h.1 rfl (by decide) (by decide)
  rw [h2]
  decide

/-- C2 amended: in the single-field scripts a present, non-empty target
field is returned directly, so the reference collection cannot change the
resolved value; in the truck statistics script the three fields are
returned directly only when both Truck_AADT and Tons are present and
non-empty, because the fallback triggers whenever either is empty and
then overwrites all three resolved values from the matched reference
feature. -/
theorem direct_field_no_fallback (sel : Feature) (field : String)
    (refs refs2 : List Feature)
    (h : isEmptyV (fget sel field) = false) :
    resolveValue sel refs field = fget sel field ∧
    resolveValue sel refs field = resolveValue sel refs2 field ∧
    (isEmptyV (fget sel "Truck_AADT") = false → isEmptyV (fget sel "Tons") = false →
      truckResolve sel refs = (fget sel "Truck_AADT", fget sel "AADT", fget sel "Tons")) := by
  have hdir : ∀ rs : List Feature, resolveValue sel rs field = fget sel field := by
    intro rs
    rw [resolveValue]
    simp [h]
  refine ⟨hdir refs, (hdir refs).trans (hdir refs2).symm, ?_⟩
  intro hT hTons
  rw [truckResolve]
  simp [hT, hTons]

/-- C2 witness: a feature with all three truck fields present is returned
directly. -/
theorem direct_field_no_fallback_witness :
    resolveValue refTruckCE [] "AADT" = AVal.num 7 ∧
    truckResolve refTruckCE [] = (AVal.num 3, AVal.num 7, AVal.num 4) := by
  have h := direct_field_no_fallback refTruckCE "AADT" [] [] (by decide)
  constructor
  · rw [h.1]
    decide
  · rw [h.2.2 (by decide) (by decide)]
    decide

/-- C2 counterexample: in the truck statistics script a present,
non-empty AADT value on the selected feature is overwritten from the
reference collection because Truck_AADT is empty, so the claim that a
present target field is always returned directly is false. -/
theorem truckResolve_overwrites_present_aadt :
    isEmptyV (fget selTruckCE "AADT") = false ∧
    fget selTruckCE "AADT" = AVal.num 5 ∧
    truckResolve selTruckCE [refTruckCE] = (AVal.num 3, AVal.num 7, AVal.num 4) ∧
    (truckResolve selTruckCE [refTruckCE]).2.1 ≠ fget selTruckCE "AADT" := by
  refine ⟨by decide, by decide, by decide, by decide⟩

/-- C3 amended: every script except the 4D+ miles script uses only the
first selected feature, so the remaining selected features cannot change
its output; in the scripts with a zero branch an empty resolved value
displays the fixed zero string (the string 0 for fatal crashes, projects
construction and AADT, the dollar-zero string for project cost, and the
zero triple for truck statistics), while total_miles and corridor_title
have no zero branch and render an empty field as the bare fragments; the
4D+ miles script instead loops over every selected feature and sums the
resolved values. -/
theorem first_selected_feature_only (hf : Bool) (full : List Feature)
    (f : Feature) (rest : List Feature) :
    evalTotalMiles ⟨hf, full, f :: rest⟩ = evalTotalMiles ⟨hf, full, [f]⟩ ∧
    evalFatalCrashes ⟨hf, full, f :: rest⟩ = evalFatalCrashes ⟨hf, full, [f]⟩ ∧
    evalProjectsConstruction ⟨hf, full, f :: rest⟩ = evalProjectsConstruction ⟨hf, full, [f]⟩ ∧
    evalProjectCost ⟨hf, full, f :: rest⟩ = evalProjectCost ⟨hf, full, [f]⟩ ∧
    evalCorridorTitle ⟨hf, full, f :: rest⟩ = evalCorridorTitle ⟨hf, full, [f]⟩ ∧
    evalAADT ⟨hf, full, f :: rest⟩ = evalAADT ⟨hf, full, [f]⟩ ∧
    evalTruckStats ⟨hf, full, f :: rest⟩ = evalTruckStats ⟨hf, full, [f]⟩ ∧
    (hf = true → isEmptyV (resolveValue f full "Number_Of_Fatal_Crashes") = true →
      (evalFatalCrashes ⟨hf, full, f :: rest⟩).value = "0") ∧
    (hf = true → isEmptyV (resolveValue f full "Projects_Construction") = true →
      (evalProjectsConstruction ⟨hf, full, f :: rest⟩).value = "0") ∧
    (hf = true → isEmptyV (resolveValue f full "Project_Cost_Construction") = true →
      (evalProjectCost ⟨hf, full, f :: rest⟩).value = "$0") ∧
    (hf = true → isEmptyV (resolveValue f full "AADT") = true →
      (evalAADT ⟨hf, full, f :: rest⟩).value = "0") ∧
    (hf = true → isEmptyV (truckResolve f full).1 = true →
      (evalTruckStats ⟨hf, full, f :: rest⟩).value = "0 / 0% / 0") ∧
    (hf = true → isEmptyV (fget f "Total_Miles") = true →
      (evalTotalMiles ⟨hf, full, f :: rest⟩).value = " mi") ∧
    (hf = true → isEmptyV (fget f "Corridor") = true →
      (evalCorridorTitle ⟨hf, full, f :: rest⟩).value = " Corridor Profile") := by
  cases hf
  · refine ⟨rfl, rfl, rfl, rfl, rfl, rfl, rfl, ?_, ?_, ?_, ?_, ?_, ?_, ?_⟩ <;>
      exact fun hc _ => by cases hc
  · refine ⟨rfl, rfl, rfl, rfl, rfl, rfl, rfl, ?_, ?_, ?_, ?_, ?_, ?_, ?_⟩
    · intro _ hEmpty
      simp [evalFatalCrashes, hEmpty]
    · intro _ hEmpty
      simp [evalProjectsConstruction, hEmpty]
    · intro _ hEmpty
      simp [evalProjectCost, hEmpty]
    · intro _ hEmpty
      simp [evalAADT, hEmpty]
    · intro _ hEmpty
      simp [evalTruckStats, hEmpty]
    · intro _ hEmpty
      have hz : textNumGrouped1V (fget f "Total_Miles") = "" := by
        cases hv : fget f "Total_Miles" with
        | null => rfl
        | str s => rfl
        | num q =>
          rw [hv] at hEmpty
          exact absurd hEmpty (by simp [isEmptyV])
        | nan =>
          rw [hv] at hEmpty
          exact absurd hEmpty (by simp [isEmptyV])
      simp [evalTotalMiles, hz]
    · intro _ hEmpty
      have hz : textOfAVal (fget f "Corridor") = "" := by
        cases hv : fget f "Corridor" with
        | null => rfl
        | str s =>
          rw [hv] at hEmpty
          simp [isEmptyV] at hEmpty
          simp [textOfAVal, hEmpty]
        | num q =>
          rw [hv] at hEmpty
          exact absurd hEmpty (by simp [isEmptyV])
        | nan =>
          rw [hv] at hEmpty
          exact absurd hEmpty (by simp [isEmptyV])
      simp [evalCorridorTitle, hz]

/-- C3 witness: with a first selected feature whose fields are present
but null, the fatal crashes output with two selected features equals the
output with only the first, and the scripts display their zero strings or
bare fragments. -/
theorem first_selected_feature_only_witness :
    evalFatalCrashes ⟨true, [], [nullFeat, fatal2]⟩ = evalFatalCrashes ⟨true, [], [nullFeat]⟩ ∧
    (evalFatalCrashes ⟨true, [], [nullFeat, fatal2]⟩).value = "0" ∧
    (evalProjectCost ⟨true, [], [nullFeat, fatal2]⟩).value = "$0" ∧
    (evalTruckStats ⟨true, [], [nullFeat, fatal2]⟩).value = "0 / 0% / 0" ∧
    (evalTotalMiles ⟨true, [], [nullFeat, fatal2]⟩).value = " mi" := by
  have h := first_selected_feature_only true [] nullFeat [fatal2]
  refine ⟨h.2.1, ?_, ?_, ?_, ?_⟩
  · exact h.2.2.2.2.2.2.2.1 rfl (by decide)
  · exact h.2.2.2.2.2.2.2.2.2.1 rfl (by decide)
  · exact h.2.2.2.2.2.2.2.2.2.2.2.1 rfl (by decide)
  · exact h.2.2.2.2.2.2.2.2.2.2.2.2.1 rfl (by decide)

/-- C3 counterexample: in the 4D+ miles script a second selected feature
changes the output, so the claim that every script takes exactly the
first selected feature is false. -/
theorem fourD_uses_every_selected_feature :
    (evalFourDMiles ⟨true, [], [fourD1, fourD2]⟩).value = "3.0 mi" ∧
    (evalFourDMiles ⟨true, [], [fourD1]⟩).value = "1.0 mi" ∧
    evalFourDMiles ⟨true, [], [fourD1, fourD2]⟩ ≠ evalFourDMiles ⟨true, [], [fourD1]⟩ := by
  refine ⟨by decide, by decide, by decide⟩

/-- C4 counterexample: with no features selected the corridor title
script computes the distinct corridor count but displays a fixed title
string, not the formatted aggregate. -/
theorem corridor_title_caseB_fixed_string :
    (evalCorridorTitle ⟨true, [corrA, corrB], []⟩).value =
      "Fort Worth District Corridors with Greatest Needs" ∧
    distinctCorridorCount [corrA, corrB] = 2 ∧
    (evalCorridorTitle ⟨true, [corrA, corrB], []⟩).value ≠ "2" := by
  refine ⟨by decide, by decide, by decide⟩

/-- C4 amended: with no features selected the sum scripts display the
formatted sum of the target field over the full reference collection, the
AADT script displays the formatted weighted average in the sense of the
spec, the truck statistics script displays its three weighted averages
over the guarded features (or the zero triple when the accumulated
weight is not positive), the sum over an empty collection is 0, and the
corridor title script displays a fixed string independent of the
reference collection (it computes but does not display the distinct
count). -/
theorem caseB_full_layer_aggregates (full full2 : List Feature) (field : String) :
    (evalTruckStats ⟨true, full, []⟩).value =
      (if 0 < ((full.filter truckGuard).map (fun f => numOf (fget f "Total_Miles"))).sum then
        truckDisplay
          (((full.filter truckGuard).map
              (fun f => numOf (fget f "Truck_AADT") * numOf (fget f "Total_Miles"))).sum /
            ((full.filter truckGuard).map (fun f => numOf (fget f "Total_Miles"))).sum)
          (((full.filter truckGuard).map
              (fun f => numOf (fget f "AADT") * numOf (fget f "Total_Miles"))).sum /
            ((full.filter truckGuard).map (fun f => numOf (fget f "Total_Miles"))).sum)
          (((full.filter truckGuard).map
              (fun f => numOf (fget f "Tons") * numOf (fget f "Total_Miles"))).sum /
            ((full.filter truckGuard).map (fun f => numOf (fget f "Total_Miles"))).sum)
      else "0 / 0% / 0") ∧
    (evalFatalCrashes ⟨true, full, []⟩).value =
      textNumGrouped (arcadeSum full "Number_Of_Fatal_Crashes") ∧
    (evalProjectsConstruction ⟨true, full, []⟩).value =
      textNumGrouped (arcadeSum full "Projects_Construction") ∧
    (evalTotalMiles ⟨true, full, []⟩).value =
      textNumGrouped1 (arcadeSum full "Total_Miles") ++ " mi" ∧
    (evalFourDMiles ⟨true, full, []⟩).value =
      textNumGrouped1 (arcadeSum full "four_D_plus_miles") ++ " mi" ∧
    (evalProjectCost ⟨true, full, []⟩).value =
      formatCompact (AVal.num (arcadeSum full "Project_Cost_Construction")) ∧
    (evalAADT ⟨true, full, []⟩).value =
      textNumGrouped (mkRat (roundHalfAway
        (specWeightedAverage full "AADT" "Total_Miles")) 1) ∧
    arcadeSum [] field = 0 ∧
    (evalCorridorTitle ⟨true, full, []⟩).value = (evalCorridorTitle ⟨true, full2, []⟩).value := by
  refine ⟨?_, rfl, rfl, rfl, rfl, rfl, ?_, rfl, rfl⟩
  · show (if (truckCaseBVals full).1 then
        truckDisplay (truckCaseBVals full).2.1 (truckCaseBVals full).2.2.1
          (truckCaseBVals full).2.2.2
      else "0 / 0% / 0") = _
    rw [truckCaseBVals, truckFold_eq full]
    by_cases h :
        0 < ((full.filter truckGuard).map (fun f => numOf (fget f "Total_Miles"))).sum
    · have hp : posQ ((full.filter truckGuard).map
          (fun f => numOf (fget f "Total_Miles"))).sum = true := (posQ_iff _).mpr h
      simp only [hp, if_true, if_pos h, qdiv_eq]
    · have hp : posQ ((full.filter truckGuard).map
          (fun f => numOf (fget f "Total_Miles"))).sum = false := (posQ_false_iff _).mpr h
      simp only [hp, Bool.false_eq_true, if_false, if_neg h]
  · rw [← aadtAvg_eq_spec full, evalAADT, aadtAvg]
    by_cases h : posQ (aadtFold full).2 = true
    · simp only [h, if_true]
    · simp only [Bool.not_eq_true] at h
      simp only [h, Bool.false_eq_true, if_false]
      decide

/-- C5 amended: the AADT script weighted average equals the spec formula
exactly (filter on value and weight both present and positive, 0 on zero
total weight, never a division by zero); the truck statistics script
weighted averages filter only on Truck_AADT and Total_Miles being
positive, so the AADT and Tons sums include features whose value is
missing (contributing 0) or not positive; a zero accumulated weight still
yields the zero result there too. -/
theorem weighted_average_guard_analysis (feats : List Feature) :
    aadtAvg feats = specWeightedAverage feats "AADT" "Total_Miles" ∧
    truckFold feats =
      (((feats.filter truckGuard).map
          (fun f => numOf (fget f "Truck_AADT") * numOf (fget f "Total_Miles"))).sum,
        ((feats.filter truckGuard).map
          (fun f => numOf (fget f "AADT") * numOf (fget f "Total_Miles"))).sum,
        ((feats.filter truckGuard).map
          (fun f => numOf (fget f "Tons") * numOf (fget f "Total_Miles"))).sum,
        ((feats.filter truckGuard).map (fun f => numOf (fget f "Total_Miles"))).sum) ∧
    ((truckFold feats).2.2.2 = 0 → truckCaseBVals feats = (false, 0, 0, 0)) := by
  refine ⟨aadtAvg_eq_spec feats, truckFold_eq feats, ?_⟩
  intro h0
  rw [truckCaseBVals, h0]
  have hp : posQ (0 : ℚ) = false := by decide
  rw [hp]
  simp

/-- C5 witness: on the empty collection both weighted averages are 0 and
the truck script reports no data. -/
theorem weighted_average_guard_analysis_witness :
    aadtAvg [] = specWeightedAverage [] "AADT" "Total_Miles" ∧
    truckCaseBVals [] = (false, 0, 0, 0) := by
  have h := weighted_average_guard_analysis []
  exact ⟨h.1, h.2.2 rfl⟩

/-- C5 counterexample: a feature passing the Truck_AADT-and-miles guard
with a negative AADT makes the truck script report an AADT weighted
average of -5, while the spec formula (filtering on the value being
present and positive) yields 0, so the claim is false for the truck
statistics weighted averages. -/
theorem truck_weighted_average_ignores_value_guard :
    (truckCaseBVals [truckCE5]).1 = true ∧
    (truckCaseBVals [truckCE5]).2.2.1 = -5 ∧
    specWeightedAverage [truckCE5] "AADT" "Total_Miles" = 0 ∧
    ((-5 : ℚ) ≠ 0) := by
  refine ⟨by decide, by decide, ?_, by decide⟩
  rw [specWeightedAverage]
  decide

theorem sign_mul_abs_q (q : ℚ) :
    |q| * (if q.num < 0 then (-1 : ℚ) else 1) = q := by
  by_cases h : q.num < 0
  · have hneg : q < 0 := by
      rw [← not_le]
      intro hc
      exact absurd (Rat.num_nonneg.mpr hc) (by omega)
    rw [if_pos h, abs_of_neg hneg]
    ring
  · have hnn : 0 ≤ q := Rat.num_nonneg.mp (le_of_not_lt h)
    rw [if_neg h, abs_of_nonneg hnn]
    ring

theorem cross_arg (q c : ℚ) :
    qmul (qmul (qdiv (qabs q) c) (if q.num < 0 then (-1 : ℚ) else 1)) 10 =
      qmul (qdiv q c) 10 := by
  simp only [qmul_eq, qdiv_eq, qabs_eq]
  rw [div_mul_eq_mul_div, sign_mul_abs_q]

theorem cross_arg0 (q : ℚ) :
    qmul (qmul (qabs q) (if q.num < 0 then (-1 : ℚ) else 1)) 10 = qmul q 10 := by
  simp only [qmul_eq, qabs_eq]
  rw [sign_mul_abs_q]

/-- C6 amended: both compact formatters share the band structure of the
claim (thresholds at 1000, one million, one billion, division by the
threshold, one-decimal rounding with a trailing .0 dropped, sign
preserved, no grouping), and on every number the part_000 variant is the
dollar-prefixed rendering of the AADT variant; for empty input the
part_000 variant returns the dollar-zero string but the AADT variant
returns the plain zero string without a dollar sign, and for NaN input
the AADT variant returns the plain zero string while the part_000
variant has no NaN check and falls through to the billions branch. -/
theorem formatCompact_band_structure (q : ℚ) :
    (|q| < 1000 →
      formatCompact (AVal.num q) = "$" ++ tenthsStrPlain (roundHalfAway (qmul q 10))) ∧
    (1000 ≤ |q| → |q| < 1000000 →
      formatCompact (AVal.num q) =
        "$" ++ tenthsStrPlain (roundHalfAway (qmul (qdiv q 1000) 10)) ++ "K") ∧
    (1000000 ≤ |q| → |q| < 1000000000 →
      formatCompact (AVal.num q) =
        "$" ++ tenthsStrPlain (roundHalfAway (qmul (qdiv q 1000000) 10)) ++ "M") ∧
    (1000000000 ≤ |q| →
      formatCompact (AVal.num q) =
        "$" ++ tenthsStrPlain (roundHalfAway (qmul (qdiv q 1000000000) 10)) ++ "B") ∧
    formatCompact (AVal.num q) = "$" ++ FormatCompact (AVal.num q) ∧
    formatCompact AVal.null = "$0" ∧
    FormatCompact AVal.null = "0" ∧
    FormatCompact AVal.nan = "0" ∧
    formatCompact AVal.nan ≠ "$0" := by
  refine ⟨?_, ?_, ?_, ?_, ?_, by decide, by decide, by decide, by decide⟩
  · intro h1
    have c1 : qltB (qabs q) 1000 = true := by
      rw [qltB_iff, qabs_eq]
      exact h1
    have he : isEmptyV (AVal.num q) = false := rfl
    simp [formatCompact, he, c1]
  · intro h1 h2
    have c1 : qltB (qabs q) 1000 = false := by
      rw [qltB_false_iff, qabs_eq]
      exact h1
    have c2 : qltB (qabs q) 1000000 = true := by
      rw [qltB_iff, qabs_eq]
      exact h2
    have he : isEmptyV (AVal.num q) = false := rfl
    simp [formatCompact, he, c1, c2]
  · intro h1 h2
    have c1 : qltB (qabs q) 1000 = false := by
      rw [qltB_false_iff, qabs_eq]
      linarith
    have c2 : qltB (qabs q) 1000000 = false := by
      rw [qltB_false_iff, qabs_eq]
      exact h1
    have c3 : qltB (qabs q) 1000000000 = true := by
      rw [qltB_iff, qabs_eq]
      exact h2
    have he : isEmptyV (AVal.num q) = false := rfl
    simp [formatCompact, he, c1, c2, c3]
  · intro h1
    have c1 : qltB (qabs q) 1000 = false := by
      rw [qltB_false_iff, qabs_eq]
      linarith
    have c2 : qltB (qabs q) 1000000 = false := by
      rw [qltB_false_iff, qabs_eq]
      linarith
    have c3 : qltB (qabs q) 1000000000 = false := by
      rw [qltB_false_iff, qabs_eq]
      exact h1
    have he : isEmptyV (AVal.num q) = false := rfl
    simp [formatCompact, he, c1, c2, c3]
  · rcases lt_or_le (|q|) 1000 with h1 | h1
    · have c1 : qltB (qabs q) 1000 = true := by
        rw [qltB_iff, qabs_eq]
        exact h1
      have d1 : qleB 1000 (qabs q) = false := by
        rw [qleB_false_iff, qabs_eq]
        exact h1
      have d2 : qleB 1000000 (qabs q) = false := by
        rw [qleB_false_iff, qabs_eq]
        linarith
      have d3 : qleB 1000000000 (qabs q) = false := by
        rw [qleB_false_iff, qabs_eq]
        linarith
      simp only [formatCompact, FormatCompact, isEmptyV, isNanV, Bool.or_self,
        Bool.false_eq_true, if_false, c1, if_true, d1, d2, d3]
      rw [cross_arg0]
    · rcases lt_or_le (|q|) 1000000 with h2 | h2
      · have c1 : qltB (qabs q) 1000 = false := by
          rw [qltB_false_iff, qabs_eq]
          exact h1
        have c2 : qltB (qabs q) 1000000 = true := by
          rw [qltB_iff, qabs_eq]
          exact h2
        have d1 : qleB 1000 (qabs q) = true := by
          rw [qleB_iff, qabs_eq]
          exact h1
        have d2 : qleB 1000000 (qabs q) = false := by
          rw [qleB_false_iff, qabs_eq]
          exact h2
        have d3 : qleB 1000000000 (qabs q) = false := by
          rw [qleB_false_iff, qabs_eq]
          linarith
        simp only [formatCompact, FormatCompact, isEmptyV, isNanV, Bool.or_self,
          Bool.false_eq_true, if_false, c1, c2, if_true, d1, d2, d3]
        rw [cross_arg]
        simp [String.append_assoc]
      · rcases lt_or_le (|q|) 1000000000 with h3 | h3
        · have c1 : qltB (qabs q) 1000 = false := by
            rw [qltB_false_iff, qabs_eq]
            linarith
          have c2 : qltB (qabs q) 1000000 = false := by
            rw [qltB_false_iff, qabs_eq]
            exact h2
          have c3 : qltB (qabs q) 1000000000 = true := by
            rw [qltB_iff, qabs_eq]
            exact h3
          have d1 : qleB 1000 (qabs q) = true := by
            rw [qleB_iff, qabs_eq]
            linarith
          have d2 : qleB 1000000 (qabs q) = true := by
            rw [qleB_iff, qabs_eq]
            exact h2
          have d3 : qleB 1000000000 (qabs q) = false := by
            rw [qleB_false_iff, qabs_eq]
            exact h3
          simp only [formatCompact, FormatCompact, isEmptyV, isNanV, Bool.or_self,
            Bool.false_eq_true, if_false, c1, c2, c3, if_true, d1, d2, d3]
          rw [cross_arg]
          simp [String.append_assoc]
        · have c1 : qltB (qabs q) 1000 = false := by
            rw [qltB_false_iff, qabs_eq]
            linarith
          have c2 : qltB (qabs q) 1000000 = false := by
            rw [qltB_false_iff, qabs_eq]
            linarith
          have c3 : qltB (qabs q) 1000000000 = false := by
            rw [qltB_false_iff, qabs_eq]
            exact h3
          have d3 : qleB 1000000000 (qabs q) = true := by
            rw [qleB_iff, qabs_eq]
            exact h3
          simp only [formatCompact, FormatCompact, isEmptyV, isNanV, Bool.or_self,
            Bool.false_eq_true, if_false, c1, c2, c3, if_true, d3]
          rw [cross_arg]
          simp [String.append_assoc]

/-- C6 witness: the spec examples evaluated through the band theorem. -/
theorem formatCompact_band_structure_witness :
    formatCompact (AVal.num 1500) = "$1.5K" ∧
    formatCompact (AVal.num 999) = "$999" ∧
    formatCompact (AVal.num 2500000) = "$2.5M" ∧
    formatCompact (AVal.num 0) = "$0" := by
  have h1 := (formatCompact_band_structure 1500).2.1
    (by rw [abs_of_pos] <;> norm_num) (by rw [abs_of_pos] <;> norm_num)
  have h2 := (formatCompact_band_structure 999).1 (by rw [abs_of_pos] <;> norm_num)
  have h3 := (formatCompact_band_structure 2500000).2.2.1
    (by rw [abs_of_pos] <;> norm_num) (by rw [abs_of_pos] <;> norm_num)
  have h4 := (formatCompact_band_structure 0).1 (by norm_num)
  rw [h1, h2, h3, h4]
  refine ⟨by decide, by decide, by decide, by decide⟩

/-- C6 counterexample: the AADT variant of the compact formatter returns
the string 0 without a dollar sign for empty input, so the claim that the
compact formatter returns the dollar-zero string on empty input is
false. -/
theorem FormatCompact_empty_not_dollar_zero :
    FormatCompact AVal.null = "0" ∧ FormatCompact AVal.null ≠ "$0" := by
  refine ⟨by decide, by decide⟩

/-- C7 amended: when the full-layer key is absent every script returns
its fixed error string regardless of the selection state; with the key
present, a selected feature whose fields are present but null degrades to
the zero display string in the scripts that have a zero branch (the
string 0, the dollar-zero string, the zero triple, or 0.0 mi), while
total_miles and corridor_title have no zero branch and display the bare
fragments, which are not zero-equivalent strings; the never-raises
guarantee is stated for null-valued fields and GetVal-based reads, since
direct indexing of a field absent from the schema is the host error path
outside this embedding. -/
theorem missing_source_fixed_error_string (full sels : List Feature) :
    (evalTotalMiles ⟨false, full, sels⟩).value = errMsg ∧
    (evalFatalCrashes ⟨false, full, sels⟩).value = errMsg ∧
    (evalProjectsConstruction ⟨false, full, sels⟩).value = errMsg ∧
    (evalProjectCost ⟨false, full, sels⟩).value = errMsg ∧
    (evalCorridorTitle ⟨false, full, sels⟩).value = errMsg ∧
    (evalAADT ⟨false, full, sels⟩).value = errMsg ∧
    (evalFourDMiles ⟨false, full, sels⟩).value = errMsg ∧
    (evalTruckStats ⟨false, full, sels⟩).value = "Error: Data Source Not Found" ∧
    (evalFatalCrashes ⟨true, [], [nullFeat]⟩).value = "0" ∧
    (evalProjectsConstruction ⟨true, [], [nullFeat]⟩).value = "0" ∧
    (evalAADT ⟨true, [], [nullFeat]⟩).value = "0" ∧
    (evalProjectCost ⟨true, [], [nullFeat]⟩).value = "$0" ∧
    (evalTruckStats ⟨true, [], [nullFeat]⟩).value = "0 / 0% / 0" ∧
    (evalFourDMiles ⟨true, [], [nullFeat]⟩).value = "0.0 mi" ∧
    (evalTotalMiles ⟨true, [], [nullFeat]⟩).value = " mi" ∧
    (evalCorridorTitle ⟨true, [], [nullFeat]⟩).value = " Corridor Profile" := by
  refine ⟨rfl, rfl, rfl, rfl, rfl, rfl, rfl, rfl, by decide, by decide,
    by decide, by decide, by decide, by decide, by decide, by decide⟩

/-- C7 counterexample: with the source available, a first selected
feature whose Total_Miles and Corridor fields are present but null makes
total_miles and corridor_title display the bare fragments, which contain
no zero rendering at all, so the claim that every non-error anomaly
degrades to a zero-equivalent display string is false. -/
theorem empty_field_degrades_to_bare_fragment :
    (evalTotalMiles ⟨true, [], [nullFeat]⟩).value = " mi" ∧
    (evalTotalMiles ⟨true, [], [nullFeat]⟩).value ≠ "0.0 mi" ∧
    (evalTotalMiles ⟨true, [], [nullFeat]⟩).value ≠ "0 mi" ∧
    (evalCorridorTitle ⟨true, [], [nullFeat]⟩).value = " Corridor Profile" ∧
    (evalCorridorTitle ⟨true, [], [nullFeat]⟩).value ≠ "0" := by
  refine ⟨by decide, by decide, by decide, by decide, by decide⟩

/-- C9: the text styling record of every script is a constant of the
script, independent of the data sources, the selection state and the
field values: bold, the fixed blue color, no italic, underline or
strike, and the fixed size of 20 (22 for the corridor title script). -/
theorem styling_constant_across_inputs (env env2 : Env) :
    (evalTotalMiles env).text = (evalTotalMiles env2).text ∧
    (evalTotalMiles env).text = ⟨20, true, "rgb(0, 86, 169)", false, false, false⟩ ∧
    (evalFatalCrashes env).text = (evalFatalCrashes env2).text ∧
    (evalFatalCrashes env).text = ⟨20, true, "rgb(0, 86, 169)", false, false, false⟩ ∧
    (evalProjectsConstruction env).text = (evalProjectsConstruction env2).text ∧
    (evalProjectsConstruction env).text = ⟨20, true, "rgb(0, 86, 169)", false, false, false⟩ ∧
    (evalProjectCost env).text = (evalProjectCost env2).text ∧
    (evalProjectCost env).text = ⟨20, true, "rgb(0, 86, 169)", false, false, false⟩ ∧
    (evalCorridorTitle env).text = (evalCorridorTitle env2).text ∧
    (evalCorridorTitle env).text = ⟨22, true, "rgb(0, 86, 169)", false, false, false⟩ ∧
    (evalAADT env).text = (evalAADT env2).text ∧
    (evalAADT env).text = ⟨20, true, "rgb(0, 86, 169)", false, false, false⟩ ∧
    (evalTruckStats env).text = (evalTruckStats env2).text ∧
    (evalTruckStats env).text = ⟨20, true, "rgb(0, 86, 169)", false, false, false⟩ ∧
    (evalFourDMiles env).text = (evalFourDMiles env2).text ∧
    (evalFourDMiles env).text = ⟨20, true, "rgb(0, 86, 169)", false, false, false⟩ :=
  ⟨rfl, rfl, rfl, rfl, rfl, rfl, rfl, rfl, rfl, rfl, rfl, rfl, rfl, rfl, rfl, rfl⟩

/-- C10: in the AADT script, a resolved AADT value that is present but
not strictly positive displays the fixed zero string, and only a present,
strictly positive value is formatted and displayed. -/
theorem aadt_nonpositive_displays_zero (full : List Feature) (f : Feature)
    (rest : List Feature) (q : ℚ)
    (hres : resolveValue f full "AADT" = AVal.num q) :
    (¬ 0 < q → (evalAADT ⟨true, full, f :: rest⟩).value = "0") ∧
    (0 < q → (evalAADT ⟨true, full, f :: rest⟩).value = textNumGrouped q) := by
  constructor
  · intro h
    have hp : posQ q = false := (posQ_false_iff q).mpr h
    simp [evalAADT, hres, gtZero, hp, isEmptyV, textNumGroupedV]
  · intro h
    have hp : posQ q = true := (posQ_iff q).mpr h
    simp [evalAADT, hres, gtZero, hp, isEmptyV, textNumGroupedV]

/-- C10 witness: a present negative AADT displays the zero string. -/
theorem aadt_nonpositive_displays_zero_witness :
    (evalAADT ⟨true, [], [negAADTFeat]⟩).value = "0" := by
  have h := aadt_nonpositive_displays_zero [] negAADTFeat [] (-3) (by decide)
  exact h.1 (by norm_num)

/-- C8 amended: the script derives the full-layer identifier with
Replace, which removes every occurrence of the suffix pattern, not only a
trailing one; for an identifier in which the pattern occurs only as the
trailing suffix - as the configured identifier - the result equals the
identifier with the trailing suffix stripped and all other characters
unchanged. -/
theorem replace_strips_trailing_suffix (t : List Char)
    (h : hasOccur ("-selection".toList) (t ++ ("-selection".toList).dropLast) = false) :
    replaceAll ("-selection".toList) [] (t ++ "-selection".toList) = t := by
  rw [replaceAll]
  exact replaceAllAux_strip ("-selection".toList) (by decide) t _ le_rfl h

/-- C8 witness: on the configured identifier the computed full-layer
identifier is the identifier with the trailing suffix stripped. -/
theorem replace_strips_trailing_suffix_witness :
    fullLayerID = "dataSource_56-19abd51320a-layer-1-19abd51336a-layer-3".toList := by
  have h := replace_strips_trailing_suffix
    ("dataSource_56-19abd51320a-layer-1-19abd51336a-layer-3".toList) (by decide)
  rw [fullLayerID, show selectionID =
    "dataSource_56-19abd51320a-layer-1-19abd51336a-layer-3".toList ++
      "-selection".toList from by decide]
  exact h

/-- C8 counterexample: on an identifier containing the pattern in the
middle as well, Replace removes both occurrences, so the computed
identifier differs from the identifier with only the trailing suffix
stripped, refuting the claim for every selection identifier string. -/
theorem replace_removes_every_occurrence :
    replaceAll ("-selection".toList) [] ("a-selection-b-selection".toList) = "a-b".toList ∧
    replaceAll ("-selection".toList) [] ("a-selection-b-selection".toList) ≠
      "a-selection-b".toList := by
  refine ⟨by decide, by decide⟩
